import Mathlib

/-!
Verification of the PEM fuel-cell polarization-curve simulator
(`fuel_Cell_simulator.py`).

The Python source is embedded shallowly over the real numbers:
`np.log` is modelled by `Real.log` (total; for a nonpositive argument numpy
emits a runtime warning and returns a non-finite float rather than raising,
and `Real.log` likewise returns a junk value, namely `0` at `0`),
`np.maximum`/`np.minimum` by `max`/`min`, the float power `x ** 0.5` by the
real power `x ^ (0.5 : ℝ)`, and `np.linspace` by an explicit map over
`List.range`.  Elementwise numpy array arithmetic over the current-density
sweep is modelled on `List ℝ` with `List.map` and `List.zipWith`, mirroring
broadcast order.
-/

/-- The `FuelCellParameters` object: the attributes every calculator reads.
In the Python class all eight are instance attributes; only the first three
are controllable through `__init__`, the rest are assigned fixed constants
(see `FuelCellParameters.init`). -/
structure FuelCellParameters where
  R : ℝ
  F : ℝ
  T : ℝ
  P_H2 : ℝ
  P_O2 : ℝ
  alpha : ℝ
  area_resistance : ℝ
  i_limit : ℝ

/-- `FuelCellParameters.__init__(self, T_kelvin=353, P_H2_atm=1.0, P_O2_atm=1.0)`:
the constructor takes only temperature and the two partial pressures; it
assigns `R = 8.314`, `F = 96485`, `alpha = 0.5`, `area_resistance = 0.2`
and `i_limit = 1.8` unconditionally.  Fields in declaration order:
`R, F, T, P_H2, P_O2, alpha, area_resistance, i_limit`. -/
def FuelCellParameters.init (T_kelvin P_H2_atm P_O2_atm : ℝ) : FuelCellParameters :=
  ⟨8.314, 96485, T_kelvin, P_H2_atm, P_O2_atm, 0.5, 0.2, 1.8⟩

/-- Calling the constructor with every argument omitted: the Python defaults
are `T_kelvin=353`, `P_H2_atm=1.0`, `P_O2_atm=1.0`. -/
def FuelCellParameters.initDefault : FuelCellParameters :=
  FuelCellParameters.init 353 1.0 1.0

/-- A parameter set differing from `p` only in its temperature field. -/
def FuelCellParameters.set_T (p : FuelCellParameters) (t : ℝ) : FuelCellParameters :=
  ⟨p.R, p.F, t, p.P_H2, p.P_O2, p.alpha, p.area_resistance, p.i_limit⟩

/-- A parameter set differing from `p` only in its two partial-pressure fields. -/
def FuelCellParameters.set_pressures (p : FuelCellParameters) (h2 o2 : ℝ) : FuelCellParameters :=
  ⟨p.R, p.F, p.T, h2, o2, p.alpha, p.area_resistance, p.i_limit⟩

/-- `calc_nernst_voltage(params)`:
`E0 = 1.229`; `E_standard_T = E0 - 0.85e-3 * (params.T - 298.15)`;
`term_pressure = (params.R * params.T / (2 * params.F)) * np.log(params.P_H2 * (params.P_O2 ** 0.5))`;
returns `E_standard_T + term_pressure`. -/
noncomputable def calc_nernst_voltage (params : FuelCellParameters) : ℝ :=
  let E0 : ℝ := 1.229
  let E_standard_T := E0 - 0.85e-3 * (params.T - 298.15)
  let term_pressure :=
    (params.R * params.T / (2 * params.F)) * Real.log (params.P_H2 * params.P_O2 ^ (0.5 : ℝ))
  E_standard_T + term_pressure

/-- `calc_activation_loss(i, params)`:
`i0 = 1e-3`; `term_tafel = (params.R * params.T) / (2 * params.alpha * params.F)`;
`v_act = term_tafel * np.log((i + 1e-6) / i0)`; returns `np.maximum(0, v_act)`. -/
noncomputable def calc_activation_loss (i : ℝ) (params : FuelCellParameters) : ℝ :=
  let i0 : ℝ := 1e-3
  let term_tafel := (params.R * params.T) / (2 * params.alpha * params.F)
  let v_act := term_tafel * Real.log ((i + 1e-6) / i0)
  max 0 v_act

/-- `calc_ohmic_loss(i, params)`: returns `i * params.area_resistance`. -/
noncomputable def calc_ohmic_loss (i : ℝ) (params : FuelCellParameters) : ℝ :=
  i * params.area_resistance

/-- `calc_concentration_loss(i, params)`:
`i_safe = np.minimum(i, params.i_limit - 1e-4)`;
`term_conc = (params.R * params.T) / (2 * params.F)`;
returns `-term_conc * np.log(1 - (i_safe / params.i_limit))`. -/
noncomputable def calc_concentration_loss (i : ℝ) (params : FuelCellParameters) : ℝ :=
  let i_safe := min i (params.i_limit - 1e-4)
  let term_conc := (params.R * params.T) / (2 * params.F)
  let v_conc := -term_conc * Real.log (1 - i_safe / params.i_limit)
  v_conc

/-- `np.linspace(start, stop, num)` (with the default `endpoint=True`):
`num` samples `start + k * (stop - start) / (num - 1)` for `k = 0, …, num-1`. -/
noncomputable def linspace (start stop : ℝ) (num : ℕ) : List ℝ :=
  (List.range num).map (fun k : ℕ => start + (k : ℝ) * ((stop - start) / ((num : ℝ) - 1)))

/-- The tuple `simulate_fuel_cell` returns:
`(current_density, v_cell, p_cell, [v_act, v_ohmic, v_conc])`. -/
structure SimulationResult where
  current_density : List ℝ
  v_cell : List ℝ
  p_cell : List ℝ
  v_act : List ℝ
  v_ohmic : List ℝ
  v_conc : List ℝ

/-- `simulate_fuel_cell(params)`:
`current_density = np.linspace(0.001, params.i_limit - 0.05, 100)`;
`E_nernst = calc_nernst_voltage(params)`; the three loss arrays are the loss
calculators broadcast over `current_density`;
`v_cell = E_nernst - v_act - v_ohmic - v_conc` (numpy evaluates this
left-associatively: the scalar `E_nernst` broadcast against `v_act`, then two
elementwise subtractions); `p_cell = v_cell * current_density`. -/
noncomputable def simulate_fuel_cell (params : FuelCellParameters) : SimulationResult :=
  let current_density := linspace 0.001 (params.i_limit - 0.05) 100
  let E_nernst := calc_nernst_voltage params
  let v_act := current_density.map (fun i => calc_activation_loss i params)
  let v_ohmic := current_density.map (fun i => calc_ohmic_loss i params)
  let v_conc := current_density.map (fun i => calc_concentration_loss i params)
  let v_cell :=
    List.zipWith (fun x y => x - y)
      (List.zipWith (fun x y => x - y) (v_act.map (fun x => E_nernst - x)) v_ohmic) v_conc
  let p_cell := List.zipWith (fun x y => x * y) v_cell current_density
  ⟨current_density, v_cell, p_cell, v_act, v_ohmic, v_conc⟩

/-- Concrete parameter set with `i_limit = 0.01` (all other fields as the
constructor assigns them), used to probe the sweep below the `0.051`
threshold. -/
def paramsTinyLimit : FuelCellParameters :=
  ⟨8.314, 96485, 353, 1, 1, 0.5, 0.2, 0.01⟩

/-- Fusing the broadcast pipeline of `simulate_fuel_cell`: the chained
`zipWith`/`map` combination over a common sample list is the pointwise
combination. -/
lemma zipWith_sub_map_fuse (E : ℝ) (f g h : ℝ → ℝ) (c : List ℝ) :
    List.zipWith (fun x y => x - y)
      (List.zipWith (fun x y => x - y) ((c.map f).map (fun x => E - x)) (c.map g)) (c.map h)
    = c.map (fun i => E - f i - g i - h i) := by
  induction c with
  | nil => rfl
  | cons a t ih => simp only [List.map_cons, List.zipWith_cons_cons, ih]

/-- C1: for every parameter set, the net-voltage sequence of
`simulate_fuel_cell` is, index for index, `E_nernst - v_act - v_ohmic -
v_conc` with the single constant `E_nernst = calc_nernst_voltage params` and
the three loss calculators evaluated at the k-th current-density sample:
the list equals the map of that pointwise combination over the sample list. -/
theorem vcell_elementwise_decomposition (params : FuelCellParameters) :
    (simulate_fuel_cell params).v_cell =
      (simulate_fuel_cell params).current_density.map (fun i =>
        calc_nernst_voltage params - calc_activation_loss i params
          - calc_ohmic_loss i params - calc_concentration_loss i params) := by
  simp only [simulate_fuel_cell]
  exact zipWith_sub_map_fuse _ _ _ _ _

/-- C2: for positive partial pressures, `calc_nernst_voltage` on a
constructed parameter set returns exactly
`1.229 - 0.85e-3*(T - 298.15) + (R*T/(2*F)) * log (P_H2 * sqrt P_O2)`
with `R = 8.314` and `F = 96485` (the real power `P_O2 ** 0.5` coincides
with the square root). -/
theorem nernst_voltage_closed_form (t pH2 pO2 : ℝ) (hH : 0 < pH2) (hO : 0 < pO2) :
    calc_nernst_voltage (FuelCellParameters.init t pH2 pO2) =
      1.229 - 0.85e-3 * (t - 298.15) +
        (8.314 * t / (2 * 96485)) * Real.log (pH2 * Real.sqrt pO2) := by
  have h : pO2 ^ (0.5 : ℝ) = Real.sqrt pO2 := by
    rw [Real.sqrt_eq_rpow]
    norm_num
  simp only [calc_nernst_voltage, FuelCellParameters.init, h]

/-- Witness for the C2 theorem at `T = 353`, `P_H2 = 2`, `P_O2 = 4`. -/
theorem nernst_voltage_closed_form_witness :
    (0:ℝ) < 2 ∧ (0:ℝ) < 4 ∧
      calc_nernst_voltage (FuelCellParameters.init 353 2 4) =
        1.229 - 0.85e-3 * (353 - 298.15) +
          (8.314 * 353 / (2 * 96485)) * Real.log (2 * Real.sqrt 4) :=
  ⟨by norm_num, by norm_num, nernst_voltage_closed_form 353 2 4 (by norm_num) (by norm_num)⟩

/-- C3: for every parameter set and `i ≥ 0`, `calc_activation_loss` returns
`max 0 ((R*T/(2*alpha*F)) * log ((i + 1e-6) / 1e-3))`; the result is never
negative, and the `1e-6` guard keeps the logarithm's argument strictly
positive even at `i = 0`. -/
theorem activation_loss_clamped_formula (i : ℝ) (params : FuelCellParameters) (hi : 0 ≤ i) :
    calc_activation_loss i params =
        max 0 ((params.R * params.T / (2 * params.alpha * params.F)) *
          Real.log ((i + 1e-6) / 1e-3)) ∧
      0 ≤ calc_activation_loss i params ∧ 0 < (i + 1e-6) / 1e-3 := by
  refine ⟨rfl, ?_, ?_⟩
  · simp only [calc_activation_loss]
    exact le_max_left 0 _
  · have h6 : (0:ℝ) < 1e-6 := by norm_num
    have hpos : (0:ℝ) < i + 1e-6 := by linarith
    exact div_pos hpos (by norm_num)

/-- Witness for the C3 theorem at `i = 0` on the default parameter set. -/
theorem activation_loss_clamped_formula_witness :
    (0:ℝ) ≤ 0 ∧
      (calc_activation_loss 0 FuelCellParameters.initDefault =
          max 0 ((FuelCellParameters.initDefault.R * FuelCellParameters.initDefault.T /
              (2 * FuelCellParameters.initDefault.alpha * FuelCellParameters.initDefault.F)) *
            Real.log ((0 + 1e-6) / 1e-3)) ∧
        0 ≤ calc_activation_loss 0 FuelCellParameters.initDefault ∧
        (0:ℝ) < (0 + 1e-6) / 1e-3) :=
  ⟨le_refl 0, activation_loss_clamped_formula 0 FuelCellParameters.initDefault (le_refl 0)⟩

/-- C9, counterexample: the charge-transfer coefficient, area resistance and
limiting current density are not constructor arguments at all — `__init__`
takes only temperature and the two partial pressures — so no choice of
constructor arguments yields a parameter set whose `alpha`, `area_resistance`
or `i_limit` differs from the hard-coded `0.5`, `0.2`, `1.8`. -/
theorem constructor_fixed_cell_params_counterexample :
    ¬ ∃ t h2 o2 : ℝ, (FuelCellParameters.init t h2 o2).alpha ≠ 0.5 ∨
        (FuelCellParameters.init t h2 o2).area_resistance ≠ 0.2 ∨
        (FuelCellParameters.init t h2 o2).i_limit ≠ 1.8 := by
  rintro ⟨t, h2, o2, h | h | h⟩ <;> exact h rfl

/-- C9, amended: the constructor accepts only temperature and the two
partial pressures (defaults `353`, `1.0`, `1.0`); every constructed
parameter set — in particular the all-defaults one — has `alpha = 0.5`,
`area_resistance = 0.2` and `i_limit = 1.8`, which are assigned
unconditionally and cannot be overridden through the constructor. -/
theorem constructor_fixed_cell_params (t h2 o2 : ℝ) :
    (FuelCellParameters.init t h2 o2).alpha = 0.5 ∧
      (FuelCellParameters.init t h2 o2).area_resistance = 0.2 ∧
      (FuelCellParameters.init t h2 o2).i_limit = 1.8 ∧
      FuelCellParameters.initDefault = FuelCellParameters.init 353 1.0 1.0 :=
  ⟨rfl, rfl, rfl, rfl⟩

/-- C10: the three loss calculators never read the partial-pressure fields:
replacing `P_H2` and `P_O2` by arbitrary values (all other fields unchanged)
leaves `calc_activation_loss`, `calc_ohmic_loss` and
`calc_concentration_loss` unchanged at every current density. -/
theorem losses_independent_of_pressures (p : FuelCellParameters) (h2 o2 i : ℝ) :
    calc_activation_loss i (p.set_pressures h2 o2) = calc_activation_loss i p ∧
      calc_ohmic_loss i (p.set_pressures h2 o2) = calc_ohmic_loss i p ∧
      calc_concentration_loss i (p.set_pressures h2 o2) = calc_concentration_loss i p :=
  ⟨rfl, rfl, rfl⟩

/-- The sweep's sample list is the 100-point linspace from `0.001` to
`i_limit - 0.05`. -/
lemma simulate_current_density (p : FuelCellParameters) :
    (simulate_fuel_cell p).current_density = linspace 0.001 (p.i_limit - 0.05) 100 := rfl

/-- `linspace` produces `num` samples. -/
lemma linspace_length (start stop : ℝ) (num : ℕ) : (linspace start stop num).length = num := by
  unfold linspace
  rw [List.length_map, List.length_range]

/-- The k-th `linspace` sample in closed form. -/
lemma linspace_get (start stop : ℝ) (num k : ℕ) (hk : k < (linspace start stop num).length) :
    (linspace start stop num).get ⟨k, hk⟩ =
      start + (k : ℝ) * ((stop - start) / ((num : ℝ) - 1)) := by
  unfold linspace
  rw [List.get_eq_getElem]
  simp only [List.getElem_map, List.getElem_range]

/-- C4 (amended): whenever `i_limit - 0.05 > 0.001`, i.e. `i_limit > 0.051`
— which holds for every constructed parameter set, where `i_limit = 1.8` —
the sweep generates exactly 100 evenly spaced samples
`0.001 + k * ((i_limit - 0.05 - 0.001) / 99)`, running from `0.001` up to
`i_limit - 0.05` in strictly increasing order, all strictly inside
`(0, i_limit)`. -/
theorem sweep_current_density_grid (p : FuelCellParameters) (h : 0.051 < p.i_limit) :
    (simulate_fuel_cell p).current_density.length = 100 ∧
      (∀ k (hk : k < (simulate_fuel_cell p).current_density.length),
        (simulate_fuel_cell p).current_density.get ⟨k, hk⟩ =
          0.001 + (k : ℝ) * ((p.i_limit - 0.05 - 0.001) / 99)) ∧
      (simulate_fuel_cell p).current_density.Pairwise (· < ·) ∧
      ∀ x ∈ (simulate_fuel_cell p).current_density, 0 < x ∧ x < p.i_limit := by
  refine ⟨?_, ?_, ?_, ?_⟩
  · rw [simulate_current_density, linspace_length]
  · intro k hk
    have hg := linspace_get 0.001 (p.i_limit - 0.05) 100 k hk
    exact hg.trans (by norm_num)
  · show (linspace 0.001 (p.i_limit - 0.05) 100).Pairwise (· < ·)
    unfold linspace
    refine List.Pairwise.map _ ?_ (List.pairwise_lt_range 100)
    intro a b hab
    have hab' : (a : ℝ) < b := by exact_mod_cast hab
    have hd : 0 < (p.i_limit - 0.05 - 0.001) / (((100 : ℕ) : ℝ) - 1) := by
      apply div_pos (by linarith) (by norm_num)
    have hmul := mul_lt_mul_of_pos_right hab' hd
    linarith
  · show ∀ x ∈ linspace 0.001 (p.i_limit - 0.05) 100, 0 < x ∧ x < p.i_limit
    intro x hx
    unfold linspace at hx
    rw [List.mem_map] at hx
    obtain ⟨k, hk, rfl⟩ := hx
    rw [List.mem_range] at hk
    have hcast : ((100 : ℕ) : ℝ) - 1 = 99 := by norm_num
    rw [hcast]
    have hk99 : (k : ℝ) ≤ 99 := by exact_mod_cast Nat.lt_succ_iff.mp hk
    have hknn : 0 ≤ (k : ℝ) := Nat.cast_nonneg k
    have hd : 0 < (p.i_limit - 0.05 - 0.001) / 99 := div_pos (by linarith) (by norm_num)
    constructor
    · nlinarith [mul_nonneg hknn (le_of_lt hd)]
    · have hkd : (k : ℝ) * ((p.i_limit - 0.05 - 0.001) / 99) ≤
          99 * ((p.i_limit - 0.05 - 0.001) / 99) :=
        mul_le_mul_of_nonneg_right hk99 (le_of_lt hd)
      have h99 : (99 : ℝ) * ((p.i_limit - 0.05 - 0.001) / 99) = p.i_limit - 0.05 - 0.001 := by
        field_simp
      rw [h99] at hkd
      linarith

/-- Witness for the C4 theorem on the default parameter set (`i_limit = 1.8`). -/
theorem sweep_current_density_grid_witness :
    (0.051 : ℝ) < FuelCellParameters.initDefault.i_limit ∧
      ((simulate_fuel_cell FuelCellParameters.initDefault).current_density.length = 100 ∧
        (∀ k (hk : k <
            (simulate_fuel_cell FuelCellParameters.initDefault).current_density.length),
          (simulate_fuel_cell FuelCellParameters.initDefault).current_density.get ⟨k, hk⟩ =
            0.001 + (k : ℝ) *
              ((FuelCellParameters.initDefault.i_limit - 0.05 - 0.001) / 99)) ∧
        (simulate_fuel_cell FuelCellParameters.initDefault).current_density.Pairwise (· < ·) ∧
        ∀ x ∈ (simulate_fuel_cell FuelCellParameters.initDefault).current_density,
          0 < x ∧ x < FuelCellParameters.initDefault.i_limit) :=
  ⟨by norm_num [FuelCellParameters.initDefault, FuelCellParameters.init],
   sweep_current_density_grid FuelCellParameters.initDefault
     (by norm_num [FuelCellParameters.initDefault, FuelCellParameters.init])⟩

/-- C4, counterexample: with `i_limit = 0.01 > 0` the claim fails — the last
sample (`k = 99`) of `np.linspace(0.001, i_limit - 0.05, 100)` is `-0.04`,
which lies outside `(0, i_limit)`: the grid runs downward as soon as
`i_limit - 0.05 < 0.001`. -/
theorem sweep_samples_outside_range_counterexample :
    0 < paramsTinyLimit.i_limit ∧
      (-0.04 : ℝ) ∈ (simulate_fuel_cell paramsTinyLimit).current_density ∧
      ¬ (0 < (-0.04 : ℝ) ∧ (-0.04 : ℝ) < paramsTinyLimit.i_limit) := by
  refine ⟨by norm_num [paramsTinyLimit], ?_, ?_⟩
  · rw [simulate_current_density]
    unfold linspace
    rw [List.mem_map]
    refine ⟨99, List.mem_range.mpr (by norm_num), ?_⟩
    norm_num [paramsTinyLimit]
  · rintro ⟨h0, -⟩
    norm_num at h0

/-- C5: for any current density at or beyond the limiting current, the
concentration-loss input is clamped to `min i (i_limit - 1e-4) =
i_limit - 1e-4`, so the function returns exactly its value at
`i_limit - 1e-4`, and the logarithm's argument `1 - i_safe / i_limit =
1e-4 / i_limit` stays strictly positive: the policy is saturate, not fail. -/
theorem concentration_loss_saturates (i : ℝ) (p : FuelCellParameters)
    (hil : 0 < p.i_limit) (hi : p.i_limit ≤ i) :
    calc_concentration_loss i p = calc_concentration_loss (p.i_limit - 1e-4) p ∧
      0 < 1 - min i (p.i_limit - 1e-4) / p.i_limit := by
  have he4 : (0 : ℝ) < 1e-4 := by norm_num
  have hmin : min i (p.i_limit - 1e-4) = p.i_limit - 1e-4 := min_eq_right (by linarith)
  constructor
  · simp only [calc_concentration_loss, hmin, min_self]
  · rw [hmin]
    have hlt : (p.i_limit - 1e-4) / p.i_limit < 1 := by
      rw [div_lt_one hil]
      linarith
    linarith

/-- Witness for the C5 theorem at `i = 2` on the default parameter set
(`i_limit = 1.8 ≤ 2`). -/
theorem concentration_loss_saturates_witness :
    0 < FuelCellParameters.initDefault.i_limit ∧
      FuelCellParameters.initDefault.i_limit ≤ 2 ∧
      (calc_concentration_loss 2 FuelCellParameters.initDefault =
          calc_concentration_loss (FuelCellParameters.initDefault.i_limit - 1e-4)
            FuelCellParameters.initDefault ∧
        0 < 1 - min 2 (FuelCellParameters.initDefault.i_limit - 1e-4) /
            FuelCellParameters.initDefault.i_limit) :=
  ⟨by norm_num [FuelCellParameters.initDefault, FuelCellParameters.init],
   by norm_num [FuelCellParameters.initDefault, FuelCellParameters.init],
   concentration_loss_saturates 2 FuelCellParameters.initDefault
     (by norm_num [FuelCellParameters.initDefault, FuelCellParameters.init])
     (by norm_num [FuelCellParameters.initDefault, FuelCellParameters.init])⟩

/-- C6, counterexample: on the default parameter set (`i_limit = 1.8`) the
two distinct current densities `1.79995 < 1.799975`, both inside
`(0, i_limit)`, yield equal concentration losses: both exceed the clamp
threshold `i_limit - 1e-4 = 1.7999`, so `min` maps them to the same input
and the loss is not strictly increasing on all of `(0, i_limit)`. -/
theorem concentration_loss_mono_counterexample :
    0 < FuelCellParameters.initDefault.i_limit ∧
      (0 : ℝ) < 1.79995 ∧ (1.79995 : ℝ) < 1.799975 ∧
      (1.799975 : ℝ) < FuelCellParameters.initDefault.i_limit ∧
      ¬ calc_concentration_loss 1.79995 FuelCellParameters.initDefault <
          calc_concentration_loss 1.799975 FuelCellParameters.initDefault := by
  refine ⟨by norm_num [FuelCellParameters.initDefault, FuelCellParameters.init],
    by norm_num, by norm_num,
    by norm_num [FuelCellParameters.initDefault, FuelCellParameters.init], ?_⟩
  have hmin1 : min (1.79995 : ℝ) (FuelCellParameters.initDefault.i_limit - 1e-4) =
      FuelCellParameters.initDefault.i_limit - 1e-4 := by
    apply min_eq_right
    norm_num [FuelCellParameters.initDefault, FuelCellParameters.init]
  have hmin2 : min (1.799975 : ℝ) (FuelCellParameters.initDefault.i_limit - 1e-4) =
      FuelCellParameters.initDefault.i_limit - 1e-4 := by
    apply min_eq_right
    norm_num [FuelCellParameters.initDefault, FuelCellParameters.init]
  have he : calc_concentration_loss 1.79995 FuelCellParameters.initDefault =
      calc_concentration_loss 1.799975 FuelCellParameters.initDefault := by
    simp only [calc_concentration_loss, hmin1, hmin2]
  rw [he]
  exact lt_irrefl _

/-- C6 (amended): the concentration loss is strictly increasing in current
density on `(0, i_limit - 1e-4]` (for physically meaningful positive
`R`, `F`, `T`, as assigned by the constructor); beyond `i_limit - 1e-4`
the clamp makes it constant, so strictness on all of `(0, i_limit)` fails. -/
theorem concentration_loss_strict_mono (p : FuelCellParameters) (i1 i2 : ℝ)
    (hR : 0 < p.R) (hT : 0 < p.T) (hF : 0 < p.F) (hil : 0 < p.i_limit)
    (h0 : 0 < i1) (h12 : i1 < i2) (h2 : i2 ≤ p.i_limit - 1e-4) :
    calc_concentration_loss i1 p < calc_concentration_loss i2 p := by
  have hmin1 : min i1 (p.i_limit - 1e-4) = i1 := min_eq_left (by linarith)
  have hmin2 : min i2 (p.i_limit - 1e-4) = i2 := min_eq_left h2
  have hC : 0 < p.R * p.T / (2 * p.F) := div_pos (mul_pos hR hT) (by linarith)
  have he4 : (0 : ℝ) < 1e-4 := by norm_num
  have hx : 0 < 1 - i2 / p.i_limit := by
    have hi2 : i2 / p.i_limit < 1 := by
      rw [div_lt_one hil]
      linarith
    linarith
  have hxy : 1 - i2 / p.i_limit < 1 - i1 / p.i_limit := by
    have hdiv : i1 / p.i_limit < i2 / p.i_limit :=
      (div_lt_div_iff_of_pos_right hil).mpr h12
    linarith
  have hlog := Real.log_lt_log hx hxy
  simp only [calc_concentration_loss, hmin1, hmin2]
  have hmul := mul_lt_mul_of_pos_left hlog hC
  linarith

/-- Witness for the C6 theorem: default parameter set, `i1 = 0.5 < i2 = 1`. -/
theorem concentration_loss_strict_mono_witness :
    0 < FuelCellParameters.initDefault.R ∧ 0 < FuelCellParameters.initDefault.T ∧
      0 < FuelCellParameters.initDefault.F ∧ 0 < FuelCellParameters.initDefault.i_limit ∧
      (0 : ℝ) < 0.5 ∧ (0.5 : ℝ) < 1 ∧
      (1 : ℝ) ≤ FuelCellParameters.initDefault.i_limit - 1e-4 ∧
      calc_concentration_loss 0.5 FuelCellParameters.initDefault <
        calc_concentration_loss 1 FuelCellParameters.initDefault :=
  ⟨by norm_num [FuelCellParameters.initDefault, FuelCellParameters.init],
   by norm_num [FuelCellParameters.initDefault, FuelCellParameters.init],
   by norm_num [FuelCellParameters.initDefault, FuelCellParameters.init],
   by norm_num [FuelCellParameters.initDefault, FuelCellParameters.init],
   by norm_num, by norm_num,
   by norm_num [FuelCellParameters.initDefault, FuelCellParameters.init],
   concentration_loss_strict_mono FuelCellParameters.initDefault 0.5 1
     (by norm_num [FuelCellParameters.initDefault, FuelCellParameters.init])
     (by norm_num [FuelCellParameters.initDefault, FuelCellParameters.init])
     (by norm_num [FuelCellParameters.initDefault, FuelCellParameters.init])
     (by norm_num [FuelCellParameters.initDefault, FuelCellParameters.init])
     (by norm_num) (by norm_num)
     (by norm_num [FuelCellParameters.initDefault, FuelCellParameters.init])⟩

/-- C7, counterexample: a valid parameter set (positive temperature and
pressures) on which the open-circuit voltage strictly INCREASES with
temperature: with `P_H2 = exp 20` atm and `P_O2 = 1` atm the positive
pressure term `(R*T/(2*F)) * log(P_H2 * sqrt P_O2) = (R*T/(2*F)) * 20`
grows with `T` faster than the linear correction `0.85e-3 * (T - 298.15)`
shrinks the voltage (`20 * 8.314 / (2 * 96485) ≈ 8.62e-4 > 8.5e-4`). -/
theorem nernst_voltage_temp_counterexample :
    (0 : ℝ) < 300 ∧ (300 : ℝ) < 400 ∧ 0 < Real.exp 20 ∧ (0 : ℝ) < 1 ∧
      calc_nernst_voltage (FuelCellParameters.init 300 (Real.exp 20) 1) <
        calc_nernst_voltage (FuelCellParameters.init 400 (Real.exp 20) 1) := by
  refine ⟨by norm_num, by norm_num, Real.exp_pos 20, by norm_num, ?_⟩
  simp only [calc_nernst_voltage, FuelCellParameters.init, Real.one_rpow, mul_one,
    Real.log_exp]
  norm_num

/-- C7 (amended): the open-circuit voltage decreases strictly with
temperature (all other fields fixed) exactly when the pressure term's slope
in `T` stays below the linear correction's slope, i.e. when
`(R/(2*F)) * log(P_H2 * P_O2^0.5) < 0.85e-3` — which holds for all pressures
up to about `3.7e8` atm, in particular whenever `P_H2 * sqrt P_O2 ≤ 1`;
for extreme pressures the claim fails (see the counterexample). -/
theorem nernst_voltage_temp_antitone (p : FuelCellParameters) (t1 t2 : ℝ)
    (h1 : 0 < t1) (h12 : t1 < t2) (hH : 0 < p.P_H2) (hO : 0 < p.P_O2)
    (hslope : p.R / (2 * p.F) * Real.log (p.P_H2 * p.P_O2 ^ (0.5 : ℝ)) < 0.85e-3) :
    calc_nernst_voltage (p.set_T t2) < calc_nernst_voltage (p.set_T t1) := by
  simp only [calc_nernst_voltage, FuelCellParameters.set_T]
  have key : (t2 - t1) * (p.R / (2 * p.F) * Real.log (p.P_H2 * p.P_O2 ^ (0.5 : ℝ))) <
      (t2 - t1) * 0.85e-3 :=
    mul_lt_mul_of_pos_left hslope (by linarith)
  have expand :
      (1.229 - 0.85e-3 * (t2 - 298.15) +
          p.R * t2 / (2 * p.F) * Real.log (p.P_H2 * p.P_O2 ^ (0.5 : ℝ)))
        - (1.229 - 0.85e-3 * (t1 - 298.15) +
          p.R * t1 / (2 * p.F) * Real.log (p.P_H2 * p.P_O2 ^ (0.5 : ℝ)))
      = (t2 - t1) * (p.R / (2 * p.F) * Real.log (p.P_H2 * p.P_O2 ^ (0.5 : ℝ)))
        - (t2 - t1) * 0.85e-3
        + ((t2 - t1) * 0.85e-3 - 0.85e-3 * (t2 - t1)) := by
    ring
  linarith [key, expand]

/-- Witness for the C7 theorem: default parameter set (`P_H2 = P_O2 = 1`,
so the pressure-term slope is `0 < 0.85e-3`), `T1 = 300 < T2 = 400`. -/
theorem nernst_voltage_temp_antitone_witness :
    (0 : ℝ) < 300 ∧ (300 : ℝ) < 400 ∧ 0 < FuelCellParameters.initDefault.P_H2 ∧
      0 < FuelCellParameters.initDefault.P_O2 ∧
      FuelCellParameters.initDefault.R / (2 * FuelCellParameters.initDefault.F) *
          Real.log (FuelCellParameters.initDefault.P_H2 *
            FuelCellParameters.initDefault.P_O2 ^ (0.5 : ℝ)) < 0.85e-3 ∧
      calc_nernst_voltage (FuelCellParameters.initDefault.set_T 400) <
        calc_nernst_voltage (FuelCellParameters.initDefault.set_T 300) :=
  ⟨by norm_num, by norm_num,
   by norm_num [FuelCellParameters.initDefault, FuelCellParameters.init],
   by norm_num [FuelCellParameters.initDefault, FuelCellParameters.init],
   by norm_num [FuelCellParameters.initDefault, FuelCellParameters.init,
     Real.one_rpow, Real.log_one],
   nernst_voltage_temp_antitone FuelCellParameters.initDefault 300 400
     (by norm_num) (by norm_num)
     (by norm_num [FuelCellParameters.initDefault, FuelCellParameters.init])
     (by norm_num [FuelCellParameters.initDefault, FuelCellParameters.init])
     (by norm_num [FuelCellParameters.initDefault, FuelCellParameters.init,
       Real.one_rpow, Real.log_one])⟩

/-- C8, counterexample: at `P_H2 = 0` the function does not fail — there is
no raise statement and no `InvalidParameter` error anywhere in the code;
`np.log(0.0)` merely emits a RuntimeWarning and returns `-inf`, and the
function returns normally.  In the real-valued embedding (`Real.log 0 = 0`)
the call likewise returns a value, here the temperature-corrected standard
potential. -/
theorem nernst_voltage_no_failure_counterexample :
    calc_nernst_voltage (FuelCellParameters.init 353 0 1) =
      1.229 - 0.85e-3 * (353 - 298.15) := by
  simp [calc_nernst_voltage, FuelCellParameters.init]

/-- C8 (amended): `calc_nernst_voltage` has no error path: for EVERY
temperature and pressure pair — nonpositive pressures included — it returns
the value of its formula (with `np.log` total, as numpy returns a float,
possibly non-finite, with only a warning); nothing fails and nothing
propagates as an `InvalidParameter` error. -/
theorem nernst_voltage_always_returns (t pH2 pO2 : ℝ) :
    calc_nernst_voltage (FuelCellParameters.init t pH2 pO2) =
      1.229 - 0.85e-3 * (t - 298.15) +
        8.314 * t / (2 * 96485) * Real.log (pH2 * pO2 ^ (0.5 : ℝ)) := rfl
